import Mathlib

/-!
Shallow embedding of the cleansend telemetry simulator
(src/cleansend.py and src/telemetry_sender.py).

Conventions of the embedding:
* Python floats are modelled as `ℚ`; every arithmetic step of the source is
  reproduced exactly over `ℚ`, so all definitions are computable and concrete
  runs can be settled by `decide`.
* `math.sin` is an explicit function parameter `sn : ℚ → ℚ`; theorems that
  need it assume only `SinBound sn` (the range bound `|sin| ≤ 1`), which is
  the single property of real sine the source relies on.
* every call to `random.gauss(0, σ)` is one explicit noise parameter (the
  Gaussian has full support, so any rational outcome is a possible draw);
  `random.random()` outcomes are parameters as well.
* Python `int(x)` truncates toward zero: `pyInt`.  Python float `%` with a
  positive divisor is `pyMod`.
* the mutable simulator object is the record `VehicleState`; each Python
  method that mutates `self` becomes a function from the old state (plus its
  inputs and noise) to the new state, paired with the record it returns.
* the dispatch loops are modelled at the level of emission attempts: the
  outcome of `send_packet` at the k-th attempted emission is an oracle
  `send_ok : ℕ → Bool`, and the loop body's counter/branching logic is
  reproduced exactly (`runSimulationEmits` for
  `TelemetrySender.run_simulation`, which breaks on a failed send, and
  `runCleanEmits` for `CleanVehicleSimulator.run_clean_simulation`, which
  drops the packet and continues without incrementing the counter).
-/

/-- Range bound of real sine, the one property of `math.sin` the proofs use. -/
def SinBound (sn : ℚ → ℚ) : Prop := ∀ x, -1 ≤ sn x ∧ sn x ≤ 1

/-- Python `int(x)` applied to a float: truncation toward zero. -/
def pyInt (x : ℚ) : ℤ := if 0 ≤ x then ⌊x⌋ else ⌈x⌉

/-- Python `a % b` on floats (divisor positive here): `a - b * ⌊a / b⌋`. -/
def pyMod (a b : ℚ) : ℚ := a - b * ⌊a / b⌋

/-- Output of one mission-profile evaluation: the dict
`{'throttle_target': _, 'base_temp': _, 'scenario': _}` of cleansend.py. -/
structure ProfileData where
  throttle_target : ℚ
  base_temp : ℚ
  scenario_label : String
deriving DecidableEq

/-- The `'idle'` lambda of `CleanVehicleSimulator.profiles`. -/
def idle_profile (_t : ℚ) : ProfileData := ⟨0, 25, "Idle"⟩

/-- `CleanVehicleSimulator._city_profile` (cleansend.py lines 52-62). -/
def city_profile (sn : ℚ → ℚ) (elapsed_time : ℚ) : ProfileData :=
  let cycle_time := pyMod elapsed_time 60
  let throttle :=
    if cycle_time < 15 then min 0.4 (cycle_time / 15 * 0.4)
    else if cycle_time < 35 then 0.3 + 0.1 * sn (elapsed_time * 0.3)
    else if cycle_time < 45 then max 0 (0.3 - (cycle_time - 35) / 10 * 0.3)
    else 0
  ⟨throttle, 30, "City"⟩

/-- `CleanVehicleSimulator._highway_profile` (cleansend.py lines 64-74). -/
def highway_profile (sn : ℚ → ℚ) (elapsed_time : ℚ) : ProfileData :=
  let throttle :=
    if elapsed_time < 10 then 0.6 + elapsed_time / 10 * 0.2
    else
      let base_throttle := 0.75
      let passing_cycle := pyMod (elapsed_time - 10) 120
      if 40 < passing_cycle ∧ passing_cycle < 60 then base_throttle + 0.2
      else base_throttle + 0.05 * sn (elapsed_time * 0.1)
  ⟨max 0 (min 1 throttle), 35, "Highway"⟩

/-- `CleanVehicleSimulator._track_profile` (cleansend.py lines 76-82). -/
def track_profile (sn : ℚ → ℚ) (elapsed_time : ℚ) : ProfileData :=
  let lap_time := pyMod elapsed_time 180
  let throttle :=
    if lap_time < 120 then 0.7 + 0.3 * |sn (lap_time * 0.1)|
    else 0.2 + 0.1 * sn (lap_time * 0.2)
  ⟨max 0 (min 1 throttle), 45, "Track"⟩

/-- The `'efficiency_test'` lambda of `CleanVehicleSimulator.profiles`. -/
def efficiency_profile (sn : ℚ → ℚ) (t : ℚ) : ProfileData :=
  ⟨0.15 + 0.1 * sn (t * 0.05), 22, "Efficiency"⟩

/-- `self.profiles.get(self.mission_profile, self.profiles['city'])` applied
to the elapsed time: dictionary lookup with fallback to the city profile. -/
def profiles (sn : ℚ → ℚ) (name : String) (t : ℚ) : ProfileData :=
  if name = "idle" then idle_profile t
  else if name = "city" then city_profile sn t
  else if name = "highway" then highway_profile sn t
  else if name = "track_day" then track_profile sn t
  else if name = "efficiency_test" then efficiency_profile sn t
  else city_profile sn t

/-- The mutable simulator state: the fields of `TelemetrySender.__init__`
plus the accumulators added by `CleanVehicleSimulator.__init__`. -/
structure VehicleState where
  throttle_position : ℚ
  motor_rpm : ℤ
  motor_current : ℚ
  battery_voltage : ℚ
  pack_temperature : ℚ
  controller_temp : ℚ
  odometer : ℚ
  trip_time : ℚ
  energy_consumed : ℚ
  last_update_time : ℚ
deriving DecidableEq

/-- The state right after `CleanVehicleSimulator.__init__`. -/
def initState : VehicleState :=
  { throttle_position := 0, motor_rpm := 0, motor_current := 0
    battery_voltage := 84, pack_temperature := 25, controller_temp := 30
    odometer := 0, trip_time := 0, energy_consumed := 0, last_update_time := 0 }

/-- The four `random.gauss` draws of one `generate_clean_data` call, in the
order the source makes them. -/
structure CleanNoise where
  g_current : ℚ
  g_rpm : ℚ
  g_pack : ℚ
  g_ctrl : ℚ
deriving DecidableEq

/-- `CleanVehicleSimulator.generate_clean_data` (cleansend.py lines 135-167):
the vehicle-state advance operation. -/
def generate_clean_data (sn : ℚ → ℚ) (mission_profile : String)
    (s : VehicleState) (elapsed_time : ℚ) (nz : CleanNoise) : VehicleState :=
  let profile_data := profiles sn mission_profile elapsed_time
  let s :=
    if s.last_update_time > 0 then
      let dt := elapsed_time - s.last_update_time
      let speed_kmh := ((s.motor_rpm : ℚ) / 4000) * 120
      { s with
        odometer := s.odometer + speed_kmh * dt / 3600
        energy_consumed :=
          s.energy_consumed + s.motor_current * s.battery_voltage * dt / 3600000 }
    else s
  let s := { s with last_update_time := elapsed_time }
  let throttle_diff := profile_data.throttle_target - s.throttle_position
  let tp := max 0 (min 1 (s.throttle_position + throttle_diff * 0.15))
  let motor_current := tp * 150 + nz.g_current
  let motor_rpm := pyInt (tp * 4000 + nz.g_rpm)
  let pack_temperature := profile_data.base_temp + |motor_current| * 0.1 + nz.g_pack
  let load_factor := |motor_current| / 150
  let controller_temp :=
    (if mission_profile = "track_day" then profile_data.base_temp + load_factor * 35
     else if mission_profile = "highway" then profile_data.base_temp + load_factor * 25
     else profile_data.base_temp + load_factor * 20) + nz.g_ctrl
  { s with
    throttle_position := tp, motor_current := motor_current
    motor_rpm := motor_rpm, pack_temperature := pack_temperature
    controller_temp := controller_temp }

/-- `telemetry_pb2.APPSData.APPS_STATE_RUNNING`, the only state the builder
ever emits. -/
inductive APPSState
  | RUNNING
deriving DecidableEq

/-- The `APPSData` protobuf record as built by `generate_apps_data`. -/
structure APPSData where
  state : APPSState
  current_throttle_percentage : ℚ
  current_motor_current : ℚ
  current_motor_rpm : ℤ
deriving DecidableEq

/-- The random draws of one `generate_apps_data` call: the two
`random.random()` outcomes of the `>15s` band and the two `random.gauss`
draws for current and rpm. -/
structure AppsNoise where
  r_idle : ℚ
  r_target : ℚ
  g_current : ℚ
  g_rpm : ℚ
deriving DecidableEq

/-- `TelemetrySender.generate_apps_data` (telemetry_sender.py lines 69-107):
returns the built record and the mutated state. -/
def generate_apps_data (sn : ℚ → ℚ) (s : VehicleState) (elapsed_time : ℚ)
    (nz : AppsNoise) : APPSData × VehicleState :=
  let tp0 :=
    if elapsed_time < 5 then 0
    else if elapsed_time < 10 then
      let target := 0.3 + 0.2 * sn (elapsed_time * 0.5)
      s.throttle_position + (target - s.throttle_position) * 0.1
    else if elapsed_time < 15 then
      let target := 0.5 + 0.3 * sn (elapsed_time * 1.2)
      s.throttle_position + (target - s.throttle_position) * 0.1
    else
      let target := if nz.r_idle < 0.05 then 0 else 0.2 + 0.6 * nz.r_target
      s.throttle_position + (target - s.throttle_position) * 0.08
  let tp := max 0 (min 1 tp0)
  let motor_current := tp * 150 + nz.g_current
  let motor_rpm := pyInt (tp * 4000 + nz.g_rpm)
  (⟨.RUNNING, tp, motor_current, max 0 motor_rpm⟩,
   { s with throttle_position := tp, motor_current := motor_current
            motor_rpm := motor_rpm })

/-- The `BMSSegmentData` protobuf record. -/
structure BMSSegmentData where
  buck_converter_rail_voltage : ℚ
  connected_cell_tap_bitset : ℕ
  degraded_cell_tap_bitset : ℕ
  connected_thermistor_bitset : ℕ
  cell_voltages : List ℚ
  temperatures : List ℚ
deriving DecidableEq

/-- The random draws of one `generate_bms_segment` call: the buck-rail draw
plus one draw per cell voltage and per temperature channel. -/
structure SegmentNoise where
  g_buck : ℚ
  g_cell : ℕ → ℚ
  g_temp : ℕ → ℚ

/-- `TelemetrySender.generate_bms_segment` (telemetry_sender.py lines
109-136).  `time_now` is the `time.time()` wall-clock value the source reads
inside the cell-voltage loop. -/
def generate_bms_segment (sn : ℚ → ℚ) (time_now motor_current : ℚ)
    (_segment_id : ℕ) (base_temp : ℚ) (nz : SegmentNoise) : BMSSegmentData :=
  let cell_voltages := (List.range 12).map fun (i : ℕ) =>
    let base_voltage := 3.7 + 0.3 * sn (time_now * 0.1 + (i : ℚ) * 0.5)
    let cell_voltage := base_voltage + nz.g_cell i
    max 3 (min 4.3 cell_voltage)
  let temperatures := (List.range 23).map fun i =>
    if i < 3 then base_temp + nz.g_temp i + 5
    else base_temp + nz.g_temp i + |motor_current| * 0.05
  ⟨3.3 + nz.g_buck, 0xFFF, 0x000, 0x7FFFFF, cell_voltages, temperatures⟩

/-- `telemetry_pb2.BMSData.SHUTDOWN_REASON_UNSPECIFIED`. -/
inductive ShutdownReason
  | UNSPECIFIED
deriving DecidableEq

/-- The `BMSData` protobuf record as built by `generate_bms_data`. -/
structure BMSData where
  shutdown_activated : Bool
  shutdown_reason : ShutdownReason
  measured_lvs_12v_rail : ℚ
  positive_current : ℚ
  negative_current : ℚ
  segments : List BMSSegmentData
deriving DecidableEq

/-- The random draws of one `generate_bms_data` call: pack-temperature, LVS
rail, positive/negative current draws, the per-segment base-temperature
draws and the per-segment inner draws. -/
structure BmsNoise where
  g_pack : ℚ
  g_lvs : ℚ
  g_pos : ℚ
  g_neg : ℚ
  g_seg_base : ℕ → ℚ
  seg : ℕ → SegmentNoise

/-- `TelemetrySender.generate_bms_data` (telemetry_sender.py lines 138-160):
returns the built record and the mutated state (the builder overwrites
`self.pack_temperature`). -/
def generate_bms_data (sn : ℚ → ℚ) (s : VehicleState) (elapsed_time time_now : ℚ)
    (nz : BmsNoise) : BMSData × VehicleState :=
  let pack_temperature := 25 + 10 * sn (elapsed_time * 0.02) + nz.g_pack
  let positive_current := max 0 (s.motor_current + nz.g_pos)
  let negative_current := max 0 (-(min 0 nz.g_neg))
  let segments := (List.range 5).map fun i =>
    generate_bms_segment sn time_now s.motor_current i
      (pack_temperature + nz.g_seg_base i) (nz.seg i)
  (⟨false, .UNSPECIFIED, 12 + nz.g_lvs, positive_current, negative_current, segments⟩,
   { s with pack_temperature := pack_temperature })

/-- The `InverterData.FAULT_CODE_*` enum values the builder can emit. -/
inductive FaultCode
  | NO_FAULTS
  | CONTROLLER_OVERTEMPERATURE
  | MOTOR_OVERTEMPERATURE
  | UNDERVOLTAGE
  | OVERVOLTAGE
  | OVERCURRENT
deriving DecidableEq

/-- The `InverterData.InverterLimitStates` protobuf record: eleven booleans. -/
structure InverterLimitStates where
  capacitor_temperature : Bool
  dc_current_limit : Bool
  drive_enable_limit : Bool
  igbt_acceleration_limit : Bool
  igbt_temperature_limit : Bool
  input_voltage_limit : Bool
  motor_acceleration_temperature_limit : Bool
  motor_temperature_limit : Bool
  rpm_minimum_limit : Bool
  rpm_maximum_limit : Bool
  power_limit : Bool
deriving DecidableEq

/-- The `InverterData` protobuf record as built by `generate_inverter_data`. -/
structure InverterData where
  fault_code : FaultCode
  erpm : ℤ
  duty_cycle : ℚ
  input_dc_voltage : ℚ
  ac_motor_current : ℚ
  dc_battery_current : ℚ
  controller_temperature : ℚ
  motor_temperature : ℚ
  drive_enabled : Bool
  limit_states : InverterLimitStates
deriving DecidableEq

/-- The seven `random.gauss` draws of one `generate_inverter_data` call, in
source order. -/
structure InverterNoise where
  g_ctrl : ℚ
  g_motor_temp : ℚ
  g_erpm : ℚ
  g_duty : ℚ
  g_voltage : ℚ
  g_ac : ℚ
  g_dc : ℚ
deriving DecidableEq

/-- The fault-code dispatch chain of `generate_inverter_data`
(telemetry_sender.py lines 197-208), as a function of the four operands the
chain reads. -/
def faultCodeOf (controller_temp motor_temp input_voltage motor_current : ℚ) :
    FaultCode :=
  if controller_temp > 90 then .CONTROLLER_OVERTEMPERATURE
  else if motor_temp > 110 then .MOTOR_OVERTEMPERATURE
  else if input_voltage < 60 then .UNDERVOLTAGE
  else if input_voltage > 95 then .OVERVOLTAGE
  else if |motor_current| > 160 then .OVERCURRENT
  else .NO_FAULTS

/-- `TelemetrySender.generate_inverter_data` (telemetry_sender.py lines
162-221): returns the built record and the mutated state (the builder
overwrites `self.controller_temp`).  The `elapsed_time` argument of the
source is unused by its body. -/
def generate_inverter_data (s : VehicleState) (_elapsed_time : ℚ)
    (nz : InverterNoise) : InverterData × VehicleState :=
  let ambient_temp := 25
  let load_factor := |s.motor_current| / 150
  let controller_temp := ambient_temp + load_factor * 25 + nz.g_ctrl
  let motor_temp := controller_temp * 0.8 + nz.g_motor_temp
  let erpm := pyInt ((s.motor_rpm : ℚ) * 7 + nz.g_erpm)
  let duty_cycle := max 0 (min 1 (s.throttle_position * 0.9 + nz.g_duty))
  let input_voltage := s.battery_voltage + nz.g_voltage
  let limit_states : InverterLimitStates :=
    { capacitor_temperature := decide (controller_temp > 70)
      dc_current_limit := decide (|s.motor_current| > 140)
      drive_enable_limit := false
      igbt_acceleration_limit := false
      igbt_temperature_limit := decide (controller_temp > 80)
      input_voltage_limit := decide (input_voltage < 70 ∨ input_voltage > 90)
      motor_acceleration_temperature_limit := decide (motor_temp > 85)
      motor_temperature_limit := decide (motor_temp > 100)
      rpm_minimum_limit := decide (s.motor_rpm < 100 ∧ s.throttle_position > 0.1)
      rpm_maximum_limit := decide (s.motor_rpm > 3800)
      power_limit := decide (s.motor_current * input_voltage > 50000) }
  let fault_code := faultCodeOf controller_temp motor_temp input_voltage s.motor_current
  (⟨fault_code, max 0 erpm, duty_cycle, input_voltage,
    |s.motor_current| + nz.g_ac, s.motor_current + nz.g_dc,
    controller_temp, motor_temp,
    decide (fault_code = .NO_FAULTS), limit_states⟩,
   { s with controller_temp := controller_temp })

/-- The `TelemetryPacket.DATA_TYPE_*` tags. -/
inductive DataType
  | APPS
  | BMS
  | INVERTER
deriving DecidableEq

/-- The `data_types` list both dispatch loops cycle through. -/
def data_types : List DataType := [.APPS, .BMS, .INVERTER]

/-- `data_types[packet_count % len(data_types)]`: the kind selected when the
counter reads `packet_count`. -/
def kindOf (packet_count : ℕ) : DataType :=
  data_types.get ⟨packet_count % data_types.length, Nat.mod_lt _ (by decide)⟩

/-- Kinds of the successful emissions of `TelemetrySender.run_simulation`
(telemetry_sender.py lines 284-321), over at most `fuel` emission attempts:
the counter is incremented only on a successful send, and a failed send
breaks the loop. -/
def runSimulationEmits (send_ok : ℕ → Bool) : ℕ → ℕ → ℕ → List DataType
  | 0, _, _ => []
  | fuel + 1, attempt, packet_count =>
    if send_ok attempt then
      kindOf packet_count ::
        runSimulationEmits send_ok fuel (attempt + 1) (packet_count + 1)
    else []

/-- Kinds of the successful emissions of
`CleanVehicleSimulator.run_clean_simulation` (cleansend.py lines 206-227),
over at most `fuel` emission attempts: the counter is incremented only on a
successful send, and a failed send is dropped while the loop continues. -/
def runCleanEmits (send_ok : ℕ → Bool) : ℕ → ℕ → ℕ → List DataType
  | 0, _, _ => []
  | fuel + 1, attempt, packet_count =>
    if send_ok attempt then
      kindOf packet_count ::
        runCleanEmits send_ok fuel (attempt + 1) (packet_count + 1)
    else runCleanEmits send_ok fuel (attempt + 1) packet_count

/-- Observable outcome of one `run_clean_simulation` call: the kinds of the
packets emitted and whether the connect-failure message was printed. -/
structure RunOutcome where
  emitted : List DataType
  reported_connect_failure : Bool
deriving DecidableEq

/-- `CleanVehicleSimulator.run_clean_simulation` (cleansend.py lines
169-244) at the level the error-handling claims need: when `connect()`
fails the method prints the failure to stderr and returns before the
dispatch loop, so nothing is emitted. -/
def run_clean_simulation (connect_ok : Bool) (send_ok : ℕ → Bool) (fuel : ℕ) :
    RunOutcome :=
  if connect_ok then ⟨runCleanEmits send_ok fuel 0 0, false⟩
  else ⟨[], true⟩

/-- `main` of cleansend.py (lines 246-259) followed by interpreter exit:
`main` calls `run_clean_simulation` and returns normally on every path
(there is no `sys.exit` call and the loop body catches its exceptions), so
the process exit status is 0; the pair is (exit status, run outcome). -/
def cleansend_main (connect_ok : Bool) (send_ok : ℕ → Bool) (fuel : ℕ) :
    ℕ × RunOutcome :=
  (0, run_clean_simulation connect_ok send_ok fuel)

/-! ## Helper lemmas -/

theorem pyMod_nonneg (a b : ℚ) (hb : 0 < b) : 0 ≤ pyMod a b := by
  unfold pyMod
  have h : ((⌊a / b⌋ : ℚ)) ≤ a / b := Int.floor_le (a / b)
  have h2 : b * (⌊a / b⌋ : ℚ) ≤ a := by
    have := (le_div_iff₀ hb).mp h
    linarith
  linarith

theorem pyMod_lt (a b : ℚ) (hb : 0 < b) : pyMod a b < b := by
  unfold pyMod
  have h : a / b < (⌊a / b⌋ : ℚ) + 1 := Int.lt_floor_add_one (a / b)
  have h2 : a < ((⌊a / b⌋ : ℚ) + 1) * b := (div_lt_iff₀ hb).mp h
  nlinarith

theorem pyMod_eq_self (a b : ℚ) (h0 : 0 ≤ a) (hab : a < b) : pyMod a b = a := by
  unfold pyMod
  have hb : 0 < b := lt_of_le_of_lt h0 hab
  have hfl : ⌊a / b⌋ = 0 := by
    rw [Int.floor_eq_zero_iff]
    exact Set.mem_Ico.mpr ⟨div_nonneg h0 hb.le, by rwa [div_lt_one hb]⟩
  rw [hfl]
  push_cast
  ring

theorem clamp01_nonneg (x : ℚ) : 0 ≤ max 0 (min 1 x) := le_max_left 0 (min 1 x)

theorem clamp01_le_one (x : ℚ) : max 0 (min 1 x) ≤ 1 :=
  max_le (by norm_num) (min_le_left 1 x)

/-! ## C1: state after `generate_clean_data` -/

/-- C1 (amended): after every call to `generate_clean_data`, for every prior
state, elapsed time and noise outcome, the resulting state's
`throttle_position` lies in [0, 1].  (The `motor_rpm ≥ 0` half of the claim
fails: the stored rpm is the unclamped `int(throttle*4000 + gauss)`, see the
counterexample.) -/
theorem clean_advance_throttle_clamped (sn : ℚ → ℚ) (mission : String)
    (s : VehicleState) (t : ℚ) (nz : CleanNoise) :
    0 ≤ (generate_clean_data sn mission s t nz).throttle_position ∧
    (generate_clean_data sn mission s t nz).throttle_position ≤ 1 := by
  simp only [generate_clean_data]
  exact ⟨clamp01_nonneg _, clamp01_le_one _⟩

/-- C1 counterexample: from the initial state, an idle-profile advance at
elapsed time 1 with rpm-noise draw −50 leaves `motor_rpm = −50 < 0` in the
state, refuting the claimed invariant `motor_rpm ≥ 0`. -/
theorem clean_advance_motor_rpm_negative_cex :
    (generate_clean_data (fun _ => 0) "idle" initState 1 ⟨0, -50, 0, 0⟩).motor_rpm < 0 := by
  norm_num [generate_clean_data, profiles, idle_profile, initState, pyInt]
  rw [show ((-50 : ℚ)) = ((-50 : ℤ) : ℚ) by norm_num, Int.ceil_intCast]
  norm_num

/-! ## C8: odometer and energy accumulators -/

/-- C8 (amended): one `generate_clean_data` call does not decrease
`odometer` or `energy_consumed` provided the prior state's stored
`motor_rpm`, `motor_current` and `battery_voltage` are nonnegative and the
elapsed times are non-decreasing.  (Without the nonnegativity provisos the
claim fails: noise can make the stored rpm and current negative, see the
counterexample.) -/
theorem accumulators_monotonic_of_nonneg (sn : ℚ → ℚ) (mission : String)
    (s : VehicleState) (t : ℚ) (nz : CleanNoise)
    (hr : 0 ≤ s.motor_rpm) (hc : 0 ≤ s.motor_current) (hv : 0 ≤ s.battery_voltage)
    (ht : s.last_update_time ≤ t) :
    s.odometer ≤ (generate_clean_data sn mission s t nz).odometer ∧
    s.energy_consumed ≤ (generate_clean_data sn mission s t nz).energy_consumed := by
  simp only [generate_clean_data]
  by_cases h : s.last_update_time > 0
  · simp only [h, if_true]
    have hdt : 0 ≤ t - s.last_update_time := sub_nonneg.mpr ht
    have hrq : (0 : ℚ) ≤ (s.motor_rpm : ℚ) := by exact_mod_cast hr
    constructor
    · have : 0 ≤ (s.motor_rpm : ℚ) / 4000 * 120 * (t - s.last_update_time) / 3600 := by
        have h1 : 0 ≤ (s.motor_rpm : ℚ) / 4000 * 120 := by positivity
        positivity
      linarith
    · have : 0 ≤ s.motor_current * s.battery_voltage * (t - s.last_update_time) / 3600000 := by
        positivity
      linarith
  · simp only [h, if_false]
    exact ⟨le_refl _, le_refl _⟩

/-- C8 witness: the amended monotonicity theorem applied to the initial
state, the idle profile, elapsed time 1 and zero noise. -/
theorem accumulators_monotonic_of_nonneg_witness :
    initState.odometer ≤
      (generate_clean_data (fun _ => 0) "idle" initState 1 ⟨0, 0, 0, 0⟩).odometer ∧
    initState.energy_consumed ≤
      (generate_clean_data (fun _ => 0) "idle" initState 1 ⟨0, 0, 0, 0⟩).energy_consumed :=
  accumulators_monotonic_of_nonneg (fun _ => 0) "idle" initState 1 ⟨0, 0, 0, 0⟩
    (by decide) (by decide) (by decide) (by decide)

/-- C8 counterexample: two advances from the initial state at elapsed times
1 then 2 (non-decreasing), with plausible noise draws −3 (current, σ=3) and
−50 (rpm, σ=100) on the first call, strictly decrease both `odometer` and
`energy_consumed` on the second call. -/
theorem accumulators_decrease_cex :
    (generate_clean_data (fun _ => 0) "idle"
        (generate_clean_data (fun _ => 0) "idle" initState 1 ⟨-3, -50, 0, 0⟩)
        2 ⟨0, 0, 0, 0⟩).odometer <
      (generate_clean_data (fun _ => 0) "idle" initState 1 ⟨-3, -50, 0, 0⟩).odometer ∧
    (generate_clean_data (fun _ => 0) "idle"
        (generate_clean_data (fun _ => 0) "idle" initState 1 ⟨-3, -50, 0, 0⟩)
        2 ⟨0, 0, 0, 0⟩).energy_consumed <
      (generate_clean_data (fun _ => 0) "idle" initState 1 ⟨-3, -50, 0, 0⟩).energy_consumed := by
  have hs1 : generate_clean_data (fun _ => 0) "idle" initState 1 ⟨-3, -50, 0, 0⟩ =
      { throttle_position := 0, motor_rpm := -50, motor_current := -3
        battery_voltage := 84, pack_temperature := 25.3, controller_temp := 25.4
        odometer := 0, trip_time := 0, energy_consumed := 0, last_update_time := 1 } := by
    norm_num [generate_clean_data, profiles, idle_profile, initState, pyInt,
      VehicleState.mk.injEq]
    refine ⟨?_, ?_⟩
    · rw [show ((-50 : ℚ)) = ((-50 : ℤ) : ℚ) by norm_num, Int.ceil_intCast]
    · rw [if_neg (by decide), if_neg (by decide)]
  rw [hs1]
  norm_num [generate_clean_data, profiles, idle_profile, pyInt]

/-! ## C9: connect failure at startup -/

/-- C9 (amended): when `connect()` fails, `run_clean_simulation` reports the
failure, never enters the dispatch loop (no packet is emitted), and the
process exits — but with status 0, not non-zero: `main` returns normally on
this path and nothing calls `sys.exit`. -/
theorem connect_failure_reported_no_emission (send_ok : ℕ → Bool) (fuel : ℕ) :
    (run_clean_simulation false send_ok fuel).reported_connect_failure = true ∧
    (run_clean_simulation false send_ok fuel).emitted = [] ∧
    (cleansend_main false send_ok fuel).1 = 0 :=
  ⟨rfl, rfl, rfl⟩

/-- C9 counterexample: at a concrete failed-connect run the exit status is
0, refuting the claimed non-zero exit code. -/
theorem connect_failure_exit_status_zero_cex :
    (cleansend_main false (fun _ => true) 10).1 = 0 := rfl

/-! ## C4: inverter fault-code priority -/

/-- C4: the fault code is the first matching rule in priority order
(controller overtemperature, then motor overtemperature, then undervoltage,
then overvoltage, then overcurrent, else no faults), `drive_enabled` holds
iff the fault code is `NO_FAULTS`, and on the operands
controllerTemp 95, motorTemp 50, inputVoltage 80, motorCurrent 50 the chain
yields `CONTROLLER_OVERTEMPERATURE`. -/
theorem inverter_fault_priority (ct mt iv mc : ℚ) (s : VehicleState) (t : ℚ)
    (nz : InverterNoise) :
    (90 < ct → faultCodeOf ct mt iv mc = .CONTROLLER_OVERTEMPERATURE) ∧
    (ct ≤ 90 → 110 < mt → faultCodeOf ct mt iv mc = .MOTOR_OVERTEMPERATURE) ∧
    (ct ≤ 90 → mt ≤ 110 → iv < 60 → faultCodeOf ct mt iv mc = .UNDERVOLTAGE) ∧
    (ct ≤ 90 → mt ≤ 110 → 60 ≤ iv → 95 < iv →
      faultCodeOf ct mt iv mc = .OVERVOLTAGE) ∧
    (ct ≤ 90 → mt ≤ 110 → 60 ≤ iv → iv ≤ 95 → 160 < |mc| →
      faultCodeOf ct mt iv mc = .OVERCURRENT) ∧
    (ct ≤ 90 → mt ≤ 110 → 60 ≤ iv → iv ≤ 95 → |mc| ≤ 160 →
      faultCodeOf ct mt iv mc = .NO_FAULTS) ∧
    ((generate_inverter_data s t nz).1.drive_enabled = true ↔
      (generate_inverter_data s t nz).1.fault_code = .NO_FAULTS) ∧
    faultCodeOf 95 50 80 50 = .CONTROLLER_OVERTEMPERATURE := by
  refine ⟨?_, ?_, ?_, ?_, ?_, ?_, ?_, ?_⟩
  · intro h1
    simp [faultCodeOf, h1]
  · intro h1 h2
    simp [faultCodeOf, not_lt.mpr h1, h2]
  · intro h1 h2 h3
    simp [faultCodeOf, not_lt.mpr h1, not_lt.mpr h2, h3]
  · intro h1 h2 h3 h4
    simp [faultCodeOf, not_lt.mpr h1, not_lt.mpr h2, not_lt.mpr h3, h4]
  · intro h1 h2 h3 h4 h5
    simp [faultCodeOf, not_lt.mpr h1, not_lt.mpr h2, not_lt.mpr h3, not_lt.mpr h4, h5]
  · intro h1 h2 h3 h4 h5
    simp [faultCodeOf, not_lt.mpr h1, not_lt.mpr h2, not_lt.mpr h3, not_lt.mpr h4,
      not_lt.mpr h5]
  · simp only [generate_inverter_data]
    exact decide_eq_true_iff
  · have h : (95 : ℚ) > 90 := by norm_num
    simp [faultCodeOf, h]

/-- C4 witness: the priority theorem applied at the spec's concrete test
vector. -/
theorem inverter_fault_priority_witness :
    faultCodeOf 95 50 80 50 = .CONTROLLER_OVERTEMPERATURE :=
  (inverter_fault_priority 95 50 80 50 initState 0 ⟨0, 0, 0, 0, 0, 0, 0⟩).2.2.2.2.2.2.2

/-! ## C7: builder temperatures are profile-independent -/

/-- C7: `generate_bms_data` overwrites `pack_temperature` with
`25 + 10·sin(0.02·elapsed) + noise` and `generate_inverter_data` overwrites
`controller_temp` with `25 + (|motorCurrent|/150)·25 + noise`, neither
formula reading the profile's base temperature; consequently two states
agreeing on `motor_current` (but possibly differing in every
profile-dependent temperature) produce the same emitted BMS record and the
same emitted inverter controller temperature. -/
theorem builder_temperatures_profile_independent (sn : ℚ → ℚ)
    (s s' : VehicleState) (e tn : ℚ) (nz : BmsNoise) (inz : InverterNoise)
    (h : s.motor_current = s'.motor_current) :
    (generate_bms_data sn s e tn nz).2.pack_temperature =
      25 + 10 * sn (e * 0.02) + nz.g_pack ∧
    (generate_inverter_data s e inz).2.controller_temp =
      25 + |s.motor_current| / 150 * 25 + inz.g_ctrl ∧
    (generate_bms_data sn s e tn nz).1 = (generate_bms_data sn s' e tn nz).1 ∧
    (generate_inverter_data s e inz).1.controller_temperature =
      (generate_inverter_data s' e inz).1.controller_temperature := by
  refine ⟨rfl, rfl, ?_, ?_⟩
  · simp only [generate_bms_data, generate_bms_segment, h]
  · simp only [generate_inverter_data, h]

/-- C7 witness: the independence theorem applied to two concrete states that
differ in `pack_temperature` and `controller_temp` but agree on
`motor_current`. -/
theorem builder_temperatures_profile_independent_witness :
    (generate_bms_data (fun _ => 0) initState 1 2
        ⟨0, 0, 0, 0, fun _ => 0, fun _ => ⟨0, fun _ => 0, fun _ => 0⟩⟩).2.pack_temperature =
      25 + 10 * (fun (_ : ℚ) => (0 : ℚ)) ((1 : ℚ) * 0.02) + 0 ∧
    (generate_inverter_data initState 1 ⟨0, 0, 0, 0, 0, 0, 0⟩).2.controller_temp =
      25 + |initState.motor_current| / 150 * 25 + 0 ∧
    (generate_bms_data (fun _ => 0) initState 1 2
        ⟨0, 0, 0, 0, fun _ => 0, fun _ => ⟨0, fun _ => 0, fun _ => 0⟩⟩).1 =
      (generate_bms_data (fun _ => 0)
        { initState with pack_temperature := 99, controller_temp := 99 } 1 2
        ⟨0, 0, 0, 0, fun _ => 0, fun _ => ⟨0, fun _ => 0, fun _ => 0⟩⟩).1 ∧
    (generate_inverter_data initState 1 ⟨0, 0, 0, 0, 0, 0, 0⟩).1.controller_temperature =
      (generate_inverter_data
        { initState with pack_temperature := 99, controller_temp := 99 } 1
        ⟨0, 0, 0, 0, 0, 0, 0⟩).1.controller_temperature :=
  builder_temperatures_profile_independent (fun _ => 0) initState
    { initState with pack_temperature := 99, controller_temp := 99 } 1 2
    ⟨0, 0, 0, 0, fun _ => 0, fun _ => ⟨0, fun _ => 0, fun _ => 0⟩⟩
    ⟨0, 0, 0, 0, 0, 0, 0⟩ rfl

/-! ## C10: emitted record fields are floored and clamped -/

/-- C10: for every internal state (stored `motor_rpm` may be negative) and
every elapsed time and noise outcome, the built APPS record's
`current_motor_rpm` is nonnegative, and the built inverter record's `erpm`
is nonnegative and its `duty_cycle` lies in [0, 1]. -/
theorem record_fields_floored_clamped (sn : ℚ → ℚ) (s : VehicleState) (t : ℚ)
    (an : AppsNoise) (inz : InverterNoise) :
    0 ≤ (generate_apps_data sn s t an).1.current_motor_rpm ∧
    0 ≤ (generate_inverter_data s t inz).1.erpm ∧
    0 ≤ (generate_inverter_data s t inz).1.duty_cycle ∧
    (generate_inverter_data s t inz).1.duty_cycle ≤ 1 := by
  refine ⟨?_, ?_, ?_, ?_⟩
  · simp only [generate_apps_data]
    exact le_max_left 0 _
  · simp only [generate_inverter_data]
    exact le_max_left 0 _
  · simp only [generate_inverter_data]
    exact clamp01_nonneg _
  · simp only [generate_inverter_data]
    exact clamp01_le_one _

/-! ## Per-profile throttle-target bounds -/

theorem idle_profile_throttle_bounds (t : ℚ) :
    0 ≤ (idle_profile t).throttle_target ∧ (idle_profile t).throttle_target ≤ 1 := by
  norm_num [idle_profile]

theorem city_profile_throttle_bounds (sn : ℚ → ℚ) (hsn : SinBound sn) (t : ℚ) :
    0 ≤ (city_profile sn t).throttle_target ∧ (city_profile sn t).throttle_target ≤ 1 := by
  have hc0 : 0 ≤ pyMod t 60 := pyMod_nonneg t 60 (by norm_num)
  obtain ⟨hs1, hs2⟩ := hsn (t * 0.3)
  simp only [city_profile]
  split_ifs with h1 h2 h3
  · constructor
    · exact le_min (by norm_num) (by positivity)
    · exact le_trans (min_le_left _ _) (by norm_num)
  · constructor <;> linarith
  · have h35 : 35 ≤ pyMod t 60 := not_lt.mp h2
    constructor
    · exact le_max_left _ _
    · apply max_le (by norm_num)
      have hnn : 0 ≤ (pyMod t 60 - 35) / 10 * 0.3 :=
        mul_nonneg (div_nonneg (by linarith) (by norm_num)) (by norm_num)
      linarith
  · norm_num

theorem highway_profile_throttle_bounds (sn : ℚ → ℚ) (t : ℚ) :
    0 ≤ (highway_profile sn t).throttle_target ∧
    (highway_profile sn t).throttle_target ≤ 1 := by
  simp only [highway_profile]
  exact ⟨clamp01_nonneg _, clamp01_le_one _⟩

theorem track_profile_throttle_bounds (sn : ℚ → ℚ) (t : ℚ) :
    0 ≤ (track_profile sn t).throttle_target ∧
    (track_profile sn t).throttle_target ≤ 1 := by
  simp only [track_profile]
  exact ⟨clamp01_nonneg _, clamp01_le_one _⟩

theorem efficiency_profile_throttle_bounds (sn : ℚ → ℚ) (hsn : SinBound sn) (t : ℚ) :
    0 ≤ (efficiency_profile sn t).throttle_target ∧
    (efficiency_profile sn t).throttle_target ≤ 1 := by
  obtain ⟨hs1, hs2⟩ := hsn (t * 0.05)
  simp only [efficiency_profile]
  constructor <;> linarith

/-! ## C6: throttle target in [0,1] for all five profiles -/

/-- C6: for each of the five profile names and every elapsed time ≥ 0, the
selected profile's `throttle_target` lies in [0, 1]. -/
theorem profile_throttle_target_in_unit_interval (sn : ℚ → ℚ) (hsn : SinBound sn)
    (name : String)
    (hname : name ∈ ["idle", "city", "highway", "track_day", "efficiency_test"])
    (t : ℚ) (_ht : 0 ≤ t) :
    0 ≤ (profiles sn name t).throttle_target ∧
    (profiles sn name t).throttle_target ≤ 1 := by
  fin_cases hname
  · rw [show profiles sn "idle" t = idle_profile t from rfl]
    exact idle_profile_throttle_bounds t
  · rw [show profiles sn "city" t = city_profile sn t from rfl]
    exact city_profile_throttle_bounds sn hsn t
  · rw [show profiles sn "highway" t = highway_profile sn t from rfl]
    exact highway_profile_throttle_bounds sn t
  · rw [show profiles sn "track_day" t = track_profile sn t from rfl]
    exact track_profile_throttle_bounds sn t
  · rw [show profiles sn "efficiency_test" t = efficiency_profile sn t from rfl]
    exact efficiency_profile_throttle_bounds sn hsn t

/-- C6 witness: the bound theorem applied at the idle profile, elapsed time
0 and the zero sine stand-in. -/
theorem profile_throttle_target_in_unit_interval_witness :
    0 ≤ (profiles (fun _ => 0) "idle" 0).throttle_target ∧
    (profiles (fun _ => 0) "idle" 0).throttle_target ≤ 1 :=
  profile_throttle_target_in_unit_interval (fun _ => 0)
    (fun _ => ⟨by norm_num, by norm_num⟩) "idle" (by decide) 0 (le_refl 0)

/-! ## C5: highway profile surge band -/

/-- C5 (amended): the surge condition of `_highway_profile` is the strict
band `40 < passing_cycle < 60`, so elapsed time 50 (local passing cycle
exactly 40) is outside the surge and its throttle target is at most 0.8,
while elapsed time 51 (local passing cycle 41, inside the band) yields
throttle target 0.95. -/
theorem highway_surge_band_strict (sn : ℚ → ℚ) (hsn : SinBound sn) :
    (highway_profile sn 51).throttle_target = 0.95 ∧
    (highway_profile sn 50).throttle_target ≤ 0.8 := by
  constructor
  · simp only [highway_profile]
    rw [if_neg (by norm_num)]
    rw [show ((51 : ℚ) - 10) = 41 by norm_num]
    rw [pyMod_eq_self 41 120 (by norm_num) (by norm_num)]
    rw [if_pos (by norm_num : (40 : ℚ) < 41 ∧ (41 : ℚ) < 60)]
    norm_num
  · obtain ⟨h1, h2⟩ := hsn (50 * 0.1)
    simp only [highway_profile]
    rw [if_neg (by norm_num)]
    rw [show ((50 : ℚ) - 10) = 40 by norm_num]
    rw [pyMod_eq_self 40 120 (by norm_num) (by norm_num)]
    rw [if_neg (by norm_num : ¬((40 : ℚ) < 40 ∧ (40 : ℚ) < 60))]
    apply max_le (by norm_num)
    exact le_trans (min_le_right _ _) (by linarith)

/-- C5 witness: the amended theorem applied to the zero sine stand-in. -/
theorem highway_surge_band_strict_witness :
    (highway_profile (fun _ => 0) 51).throttle_target = 0.95 ∧
    (highway_profile (fun _ => 0) 50).throttle_target ≤ 0.8 :=
  highway_surge_band_strict (fun _ => 0) (fun _ => ⟨by norm_num, by norm_num⟩)

/-- C5 counterexample: the claim as stated — elapsed 50 is inside the surge
band and the throttle target is 0.95 — is false: for any bounded sine the
local passing cycle 40 fails the strict test `40 < 40`, and the throttle
target is `0.75 + 0.05·sin(5) ≤ 0.8`; at the concrete zero sine stand-in it
is 0.75. -/
theorem highway_at_50_surge_claim_cex :
    ¬ ∀ sn : ℚ → ℚ, SinBound sn → (highway_profile sn 50).throttle_target = 0.95 := by
  intro hAll
  have h := hAll (fun _ => 0) (fun _ => ⟨by norm_num, by norm_num⟩)
  have hv : (highway_profile (fun _ => (0 : ℚ)) 50).throttle_target = 0.75 := by
    simp only [highway_profile]
    rw [if_neg (by norm_num)]
    rw [show ((50 : ℚ) - 10) = 40 by norm_num]
    rw [pyMod_eq_self 40 120 (by norm_num) (by norm_num)]
    rw [if_neg (by norm_num : ¬((40 : ℚ) < 40 ∧ (40 : ℚ) < 60))]
    norm_num
  rw [hv] at h
  norm_num at h

/-! ## Loop lemmas shared by the dispatch claims -/

theorem kindOf_as_ite (n : ℕ) : kindOf n =
    if n % 3 = 0 then DataType.APPS else if n % 3 = 1 then DataType.BMS
    else DataType.INVERTER := by
  have h : n % 3 = 0 ∨ n % 3 = 1 ∨ n % 3 = 2 := by omega
  rcases h with h | h | h <;> simp [kindOf, data_types, h]

theorem runSimulationEmits_eq_map (send_ok : ℕ → Bool) :
    ∀ fuel attempt count, runSimulationEmits send_ok fuel attempt count =
      (List.range (runSimulationEmits send_ok fuel attempt count).length).map
        (fun j => kindOf (count + j)) := by
  intro fuel
  induction fuel with
  | zero => intro a c; rfl
  | succ n ih =>
    intro a c
    by_cases hs : send_ok a = true
    · simp only [runSimulationEmits, hs, if_true, List.length_cons]
      rw [List.range_succ_eq_map]
      simp only [List.map_cons, List.map_map, Nat.add_zero]
      refine congrArg₂ _ rfl ?_
      rw [ih (a + 1) (c + 1)]
      simp only [List.length_map, List.length_range]
      refine List.map_congr_left ?_
      intro t _
      simp only [Function.comp_apply]
      congr 1
      omega
    · simp only [runSimulationEmits, hs, if_false]
      rfl

theorem runCleanEmits_eq_map (send_ok : ℕ → Bool) :
    ∀ fuel attempt count, runCleanEmits send_ok fuel attempt count =
      (List.range (runCleanEmits send_ok fuel attempt count).length).map
        (fun j => kindOf (count + j)) := by
  intro fuel
  induction fuel with
  | zero => intro a c; rfl
  | succ n ih =>
    intro a c
    by_cases hs : send_ok a = true
    · simp only [runCleanEmits, hs, if_true, List.length_cons]
      rw [List.range_succ_eq_map]
      simp only [List.map_cons, List.map_map, Nat.add_zero]
      refine congrArg₂ _ rfl ?_
      rw [ih (a + 1) (c + 1)]
      simp only [List.length_map, List.length_range]
      refine List.map_congr_left ?_
      intro t _
      simp only [Function.comp_apply]
      congr 1
      omega
    · simp only [runCleanEmits, hs, if_false]
      exact ih (a + 1) c

theorem get_of_eq_map (l : List DataType) (c : ℕ)
    (hl : l = (List.range l.length).map fun j => kindOf (c + j))
    (k : ℕ) (h : k < l.length) : l.get ⟨k, h⟩ = kindOf (c + k) := by
  rw [List.get_eq_getElem, List.getElem_of_eq hl h]
  simp

theorem countP_range_mod (a r : ℕ) (hr : r < 3) :
    ∀ N, (List.range N).countP (fun t => decide ((a + t) % 3 = r)) =
      (N + 2 - (r + 3 - a % 3) % 3) / 3 := by
  intro N
  induction N with
  | zero =>
    simp only [List.range_zero, List.countP_nil]
    omega
  | succ n ihn =>
    rw [List.range_succ, List.countP_append, ihn]
    simp only [List.countP_cons, List.countP_nil]
    by_cases h : (a + n) % 3 = r
    · simp [h]
      omega
    · simp [h]
      omega

theorem kindOf_eq_kindOf (m n : ℕ) : (kindOf m = kindOf n) ↔ m % 3 = n % 3 := by
  have hm : m % 3 = 0 ∨ m % 3 = 1 ∨ m % 3 = 2 := by omega
  have hn : n % 3 = 0 ∨ n % 3 = 1 ∨ n % 3 = 2 := by omega
  rw [kindOf_as_ite, kindOf_as_ite]
  rcases hm with hm | hm | hm <;> rcases hn with hn | hn | hn <;> simp [hm, hn]

theorem count_map_range_kindOf (a r N : ℕ) (hr : r < 3) :
    ((List.range N).map fun t => kindOf (a + t)).count (kindOf r) =
      (N + 2 - (r + 3 - a % 3) % 3) / 3 := by
  rw [List.count, List.countP_map]
  rw [show ((fun x => x == kindOf r) ∘ fun t => kindOf (a + t)) =
      fun t => decide ((a + t) % 3 = r) from ?_]
  · exact countP_range_mod a r hr N
  · funext t
    show decide (kindOf (a + t) = kindOf r) = decide ((a + t) % 3 = r)
    apply decide_eq_decide.mpr
    rw [kindOf_eq_kindOf, Nat.mod_eq_of_lt hr]

theorem range_map_drop_take (f : ℕ → DataType) (L j N : ℕ) (h : j + N ≤ L) :
    (((List.range L).map f).drop j).take N = (List.range N).map fun t => f (j + t) := by
  have hL : L = j + (L - j) := by omega
  rw [hL, List.range_add, List.map_append]
  rw [List.drop_left' (by simp : ((List.range j).map f).length = j)]
  rw [List.map_map, ← List.map_take, List.take_range]
  rw [min_eq_left (by omega : N ≤ L - j)]
  rfl

theorem runSimulationEmits_stops (send_ok : ℕ → Bool) (k : ℕ)
    (hk : send_ok k = false) :
    ∀ fuel attempt count, attempt ≤ k →
      (runSimulationEmits send_ok fuel attempt count).length + attempt ≤ k := by
  intro fuel
  induction fuel with
  | zero =>
    intro a c ha
    simpa [runSimulationEmits] using ha
  | succ n ih =>
    intro a c ha
    by_cases hs : send_ok a = true
    · have hne : a ≠ k := by
        intro e
        rw [e, hk] at hs
        cases hs
      have hrec := ih (a + 1) (c + 1) (by omega)
      simp only [runSimulationEmits, hs, if_true, List.length_cons]
      omega
    · simp only [runSimulationEmits, hs, if_false, Bool.false_eq_true, List.length_nil]
      omega

/-! ## C2: a mid-stream write failure terminates the dispatch loop -/

/-- C2 (amended): in `TelemetrySender.run_simulation` a failed send breaks
the loop, so when the send at attempt `k` fails, at most `k` packets are
ever emitted in the whole run — no emission follows the failure.  (The
claim as stated fails for `CleanVehicleSimulator.run_clean_simulation`,
which drops the failed packet and keeps looping; see the counterexample.) -/
theorem write_failure_terminates_dispatch (send_ok : ℕ → Bool) (fuel k : ℕ)
    (hk : send_ok k = false) :
    (runSimulationEmits send_ok fuel 0 0).length ≤ k := by
  have := runSimulationEmits_stops send_ok k hk fuel 0 0 (Nat.zero_le k)
  omega

/-- C2 witness: with every send failing, the run emits nothing. -/
theorem write_failure_terminates_dispatch_witness :
    (runSimulationEmits (fun _ => false) 5 0 0).length ≤ 0 :=
  write_failure_terminates_dispatch (fun _ => false) 5 0 rfl

/-- C2 counterexample: in the clean-simulator loop the send at attempt 0
fails, yet a later attempt succeeds and its packet is emitted — the run
emits one packet after the failure, refuting loop termination for
`run_clean_simulation`. -/
theorem runClean_emits_after_failure_cex :
    (fun a : ℕ => decide (0 < a)) 0 = false ∧
    (runCleanEmits (fun a => decide (0 < a)) 2 0 0).length = 1 :=
  ⟨rfl, rfl⟩

/-! ## C3: round-robin kind selection -/

/-- C3: in both dispatch loops the k-th successful emission has kind
`data_types[k % 3]` (`kindOf k`), because the packet counter is incremented
only on a successful send; hence over any window of `N` consecutive
successful emissions each kind occurs between `N/3` and `N/3 + 1` times. -/
theorem emission_kinds_round_robin (send_ok : ℕ → Bool) (fuel k j N r : ℕ) :
    (∀ h : k < (runSimulationEmits send_ok fuel 0 0).length,
      (runSimulationEmits send_ok fuel 0 0).get ⟨k, h⟩ = kindOf k) ∧
    (∀ h : k < (runCleanEmits send_ok fuel 0 0).length,
      (runCleanEmits send_ok fuel 0 0).get ⟨k, h⟩ = kindOf k) ∧
    (r < 3 → j + N ≤ (runSimulationEmits send_ok fuel 0 0).length →
      N / 3 ≤ (((runSimulationEmits send_ok fuel 0 0).drop j).take N).count (kindOf r) ∧
      (((runSimulationEmits send_ok fuel 0 0).drop j).take N).count (kindOf r) ≤ N / 3 + 1) ∧
    (r < 3 → j + N ≤ (runCleanEmits send_ok fuel 0 0).length →
      N / 3 ≤ (((runCleanEmits send_ok fuel 0 0).drop j).take N).count (kindOf r) ∧
      (((runCleanEmits send_ok fuel 0 0).drop j).take N).count (kindOf r) ≤ N / 3 + 1) := by
  have hsim := runSimulationEmits_eq_map send_ok fuel 0 0
  have hcln := runCleanEmits_eq_map send_ok fuel 0 0
  refine ⟨?_, ?_, ?_, ?_⟩
  · intro h
    simpa using get_of_eq_map _ 0 hsim k h
  · intro h
    simpa using get_of_eq_map _ 0 hcln k h
  · intro hr hjN
    have hwin : ((runSimulationEmits send_ok fuel 0 0).drop j).take N =
        (List.range N).map fun t => kindOf (j + t) := by
      conv_lhs => rw [hsim]
      rw [range_map_drop_take _ _ _ _ (by simpa using hjN)]
      simp only [Nat.zero_add]
    rw [hwin, count_map_range_kindOf j r N hr]
    omega
  · intro hr hjN
    have hwin : ((runCleanEmits send_ok fuel 0 0).drop j).take N =
        (List.range N).map fun t => kindOf (j + t) := by
      conv_lhs => rw [hcln]
      rw [range_map_drop_take _ _ _ _ (by simpa using hjN)]
      simp only [Nat.zero_add]
    rw [hwin, count_map_range_kindOf j r N hr]
    omega

/-- C3 witness: the round-robin theorem applied to an all-success run of 6
attempts, window of 3 starting at position 1: the APPS kind occurs at least
once. -/
theorem emission_kinds_round_robin_witness :
    1 ≤ (((runSimulationEmits (fun _ => true) 6 0 0).drop 1).take 3).count (kindOf 0) :=
  ((emission_kinds_round_robin (fun _ => true) 6 4 1 3 0).2.2.1
    (by decide) (by decide)).1
